import Mathlib

/-!
Verification development for the `image-finder` service.

This file gives a shallow embedding of the parts of the repository that the
checked properties refer to: the cache key and cache lookup (`utils.py`,
`cache_manager.py`), the candidate collector's merge/dedup (`image_collector.py`),
the vision evaluator's parse/filter pipeline (`vision_analyzer.py`), the image
processor (`image_processor.py`), and the request orchestration with its
fallback strategies (`main.py`).

External effects (HTTP HEAD/GET responses, the vision API call, image decoding,
disk writes) are supplied by explicit oracle parameters; pure control flow,
filtering, parsing and exception routing are translated statement by statement
from the Python source.  Python exceptions are modelled with `Except`/`Option`
following the `try`/`except` structure of the source, and pydantic model
construction is modelled by a validating constructor over the keyword arguments
actually passed at each call site.
-/

namespace ImageFinder

/-- Does the first list start with the second?  (Executable model of
`str.startswith`; the core `String.startsWith` runs on byte positions by
well-founded recursion, which the kernel cannot evaluate.) -/
def listStarts : List Char → List Char → Bool
  | _, [] => true
  | [], _ :: _ => false
  | c :: cs, d :: ds => c = d && listStarts cs ds

/-- Model of `s.startswith(p)`. -/
def strStarts (s p : String) : Bool := listStarts s.toList p.toList

/-- Model of `s.endswith(p)`. -/
def strEnds (s p : String) : Bool :=
  listStarts s.toList.reverse p.toList.reverse

/-- Model of `s.lower()`. -/
def strLower (s : String) : String := String.mk (s.toList.map Char.toLower)

/-- Does the needle occur as a contiguous run inside the haystack?
(Models Python's `in` operator on strings, used by the quota-error check.) -/
def strContains (haystack needle : String) : Bool :=
  let h := haystack.toList
  let n := needle.toList
  (List.range (h.length + 1)).any (fun i => (h.drop i).take n.length = n)

/-- Model of `sep.join(parts)`. -/
def joinSep (sep : String) : List String → String
  | [] => ""
  | [s] => s
  | s :: rest => s ++ sep ++ joinSep sep rest

/-- Split a character list at the first occurrence of `pat`:
`some (before, after)` or `none` when `pat` does not occur. -/
def findSplit (pat : List Char) : List Char → Option (List Char × List Char)
  | [] => if pat.isEmpty then some ([], []) else none
  | c :: cs =>
    if listStarts (c :: cs) pat then some ([], (c :: cs).drop pat.length)
    else
      match findSplit pat cs with
      | some (l, r) => some (c :: l, r)
      | none => none

/-- Split a URL at the first `://` into scheme and remainder. -/
def urlSplit (u : String) : Option (String × String) :=
  match findSplit "://".toList u.toList with
  | some (l, r) => some (String.mk l, String.mk r)
  | none => none

/-- Model of `urllib.parse.urlparse(url).path` restricted to what the analyzer needs:
for a `scheme://host/path` URL, the part from the first `/` after the host,
with query (`?...`) and fragment (`#...`) removed; a URL without `://` is all
path (as in `urlparse`). -/
def urlPath (u : String) : String :=
  let rest : List Char :=
    match urlSplit u with
    | some (_, r) => r.toList.dropWhile (fun c => c ≠ '/')
    | none => u.toList
  String.mk (rest.takeWhile (fun c => c ≠ '?' && c ≠ '#'))

/-! ## Data model (`models.py`) -/

/-- Embedding of `models.ImageEvaluation` (pydantic): the vision model's structured verdict
on one candidate image. -/
structure ImageEvaluation where
  image_url : String
  relevance_score : Int
  temporal_relevance : String
  watermark_severity : String
  ad_presence : String
  content_quality : String
  is_relevant_to_event : Bool
  contains_outdated_info : Bool
  reasoning : String
deriving Repr, DecidableEq

/-- Embedding of `models.ImageResponse` (pydantic): the terminal decision returned to the
caller.  `image_found` is a required field (declared `Field(...)` in
`models.py`); all other fields are optional with the defaults shown. -/
structure ImageResponse where
  image_found : Bool
  image_url : Option String := none
  original_url : Option String := none
  tool_used : Option String := none
  image_description : Option String := none
  format : Option String := none
  dimensions : Option String := none
  quality_score : Option Int := none
  temporal_relevance : Option String := none
  watermark_status : Option String := none
  cached : Bool := false
deriving Repr, DecidableEq

/-- The keyword arguments of one `ImageResponse(...)` construction site:
`none` means the keyword was not passed at that call. -/
structure ResponseKwargs where
  image_found : Option Bool := none
  image_url : Option String := none
  original_url : Option String := none
  tool_used : Option String := none
  image_description : Option String := none
  format : Option String := none
  dimensions : Option String := none
  quality_score : Option Int := none
  temporal_relevance : Option String := none
  watermark_status : Option String := none
  cached : Option Bool := none
deriving Repr, DecidableEq

/-- Python exceptions that the orchestration code distinguishes. -/
inductive PyExc where
  | http (status : Nat) (detail : String)
  | timeoutErr
  | validationErr (msg : String)
  | other (msg : String)
deriving Repr, DecidableEq

/-- Model of `str(e)` for the modelled exceptions (starlette's `HTTPException.__str__`
is `f"{status_code}: {detail}"`). -/
def pyStr : PyExc → String
  | .http s d => toString s ++ ": " ++ d
  | .timeoutErr => ""
  | .validationErr m => m
  | .other m => m

/-- The message pydantic produces when `ImageResponse` is constructed without
the required `image_found` field. -/
def missingImageFoundMsg : String :=
  "1 validation error for ImageResponse: image_found Field required"

/-- Pydantic construction of `ImageResponse` from a set of keyword arguments:
raises `ValidationError` when the required `image_found` is missing or when a
supplied `quality_score` violates its `ge=1, le=10` constraint (`models.py`). -/
def mkImageResponse (k : ResponseKwargs) : Except PyExc ImageResponse :=
  match k.image_found with
  | none => .error (.validationErr missingImageFoundMsg)
  | some f =>
    match k.quality_score with
    | some q =>
      if 1 ≤ q && q ≤ 10 then
        .ok { image_found := f, image_url := k.image_url,
              original_url := k.original_url, tool_used := k.tool_used,
              image_description := k.image_description, format := k.format,
              dimensions := k.dimensions, quality_score := some q,
              temporal_relevance := k.temporal_relevance,
              watermark_status := k.watermark_status,
              cached := k.cached.getD false }
      else .error (.validationErr "1 validation error for ImageResponse: quality_score")
    | none =>
        .ok { image_found := f, image_url := k.image_url,
              original_url := k.original_url, tool_used := k.tool_used,
              image_description := k.image_description, format := k.format,
              dimensions := k.dimensions, quality_score := none,
              temporal_relevance := k.temporal_relevance,
              watermark_status := k.watermark_status,
              cached := k.cached.getD false }

/-! ## Cache key (`utils.generate_cache_key`) -/

/-- The backslash character, written by code point to keep escapes out of the
source text. -/
def bsChar : Char := Char.ofNat 92

/-- The quote character Python `repr` picks for a string: a double quote when
the string contains a single quote but no double quote, otherwise a single
quote. -/
def pyQuote (s : String) : Char :=
  if s.toList.contains (Char.ofNat 39) && !(s.toList.contains (Char.ofNat 34))
  then Char.ofNat 34 else Char.ofNat 39

/-- Escape a character stream the way `repr` does for the chosen quote `q`: a
backslash or a `q` is preceded by a backslash, everything else is kept.
(Control-character escapes are omitted; no checked property depends on
them, and dropping them only identifies *more* strings, so the injectivity
proved below transfers to the real `repr` a fortiori.) -/
def escChars (q : Char) : List Char → List Char
  | [] => []
  | c :: cs =>
    if c = bsChar ∨ c = q then bsChar :: c :: escChars q cs
    else c :: escChars q cs

/-- Character stream of Python `repr` of a string: chosen quote, escaped
content, closing quote. -/
def pyReprChars (s : String) : List Char :=
  pyQuote s :: (escChars (pyQuote s) s.toList ++ [pyQuote s])

/-- Python `repr` of a string as used by `str(list_of_strings)`. -/
def pyRepr (s : String) : String :=
  String.mk (pyReprChars s)

/-- Decoder for one `repr`-quoted element after its opening quote `q`: read
the escaped stream up to the closing quote, returning the unescaped content
and the remaining stream.  Used only to prove that the fingerprint content
determines the images list. -/
def decodeElem (q : Char) : List Char → Option (List Char × List Char)
  | [] => none
  | c :: cs =>
    if c = q then some ([], cs)
    else if c = bsChar then
      match cs with
      | [] => none
      | d :: ds =>
        match decodeElem q ds with
        | some (e, rest) => some (d :: e, rest)
        | none => none
    else
      match decodeElem q cs with
      | some (e, rest) => some (c :: e, rest)
      | none => none

/-- Python `str` of a list of strings: `[` repr `, ` repr `]`. -/
def pyStrList (l : List String) : String :=
  "[" ++ joinSep ", " (l.map pyRepr) ++ "]"

/-- Character stream of the joined `repr`s, for reasoning about
`pyStrList`. -/
def joinReprChars : List String → List Char
  | [] => []
  | [s] => pyReprChars s
  | s :: rest => pyReprChars s ++ ',' :: ' ' :: joinReprChars rest

/-- The tail a joined element is followed by: nothing at the end of the list,
otherwise the separator and the rest of the join. -/
def sepTail : List String → List Char
  | [] => []
  | s :: rest => ',' :: ' ' :: joinReprChars (s :: rest)

/-- The string hashed by `utils.generate_cache_key`:
`f"{title}|{research}|{source_url or ''}|{str(images or [])}"`.
The SHA-256 applied on top is injective under the claims' no-collision
assumption, so fingerprint (in)equality is settled on this pre-hash content. -/
def cacheContent (title research : String) (source_url : Option String)
    (images : Option (List String)) : String :=
  title ++ "|" ++ research ++ "|" ++ source_url.getD "" ++ "|" ++
    pyStrList (images.getD [])

/-! ## Cache lookup (`cache_manager.CacheManager.get`) -/

/-- One stored cache value, with the fields `get` inspects.  `cached_at` is a
timestamp in seconds (`none` models a stored dict without the key, which
`get` defaults to 2000-01-01). -/
structure CacheEntry where
  cached_at : Option Int := none
  image_url : Option String := none
  cached : Bool := false
deriving Repr, DecidableEq

/-- Seconds in `timedelta(days=7)`. -/
def sevenDays : Int := 7 * 86400

/-- Timestamp of `datetime.fromisoformat('2000-01-01')` (seconds). -/
def epoch2000 : Int := 946684800

/-- Embedding of `CacheManager.get`, given the computed cache key, the current time, the
`_validate_url` oracle `reach` and the in-memory mapping.  Returns the lookup
result and the mapping after the call (`del` + save on expiry or dead URL). -/
def cacheGet (key : String) (now : Int) (reach : String → Bool)
    (c : String → Option CacheEntry) :
    Option CacheEntry × (String → Option CacheEntry) :=
  match c key with
  | none => (none, c)
  | some d =>
    let t := d.cached_at.getD epoch2000
    if sevenDays < now - t then
      (none, fun k => if k = key then none else c k)
    else
      match d.image_url with
      | some u =>
        if u = "" then (none, fun k => if k = key then none else c k)
        else if reach u then
          (some { d with cached := true },
            fun k => if k = key then some { d with cached := true } else c k)
        else (none, fun k => if k = key then none else c k)
      | none => (none, fun k => if k = key then none else c k)

/-! ## Candidate collector (`image_collector.ImageCollector.collect_all`) -/

/-- The dedup loop at the end of `collect_all`: walk the merged list, keep a
URL when it has not been seen, record it as seen.  `seen` is the Python set
(membership is all that is used). -/
def dedupFirst : List String → List String → List String
  | [], _ => []
  | x :: xs, seen =>
    if x ∈ seen then dedupFirst xs seen
    else x :: dedupFirst xs (x :: seen)

/-- The merged candidate list of `collect_all`: user candidates first, then
the scrape channel's output, then the search channel's output — the latter
only when fewer than 5 candidates were gathered so far.  `scraped` and
`searched` are the channel outcomes (empty on absence, timeout or error). -/
def collectMerged (candidates : Option (List String))
    (scraped searched : List String) : List String :=
  let base := candidates.getD [] ++ scraped
  if base.length < 5 then base ++ searched else base

/-- Embedding of `collect_all`: merge the channels, then deduplicate preserving first-seen
order. -/
def collectAll (candidates : Option (List String))
    (scraped searched : List String) : List String :=
  dedupFirst (collectMerged candidates scraped searched) []

/-! ## Evaluator (`vision_analyzer.VisionAnalyzer`) -/

/-- One entry of the decoded JSON array returned by the vision model, as the
parse loop sees it: either an object with the (optional) expected keys, or a
non-object value on which `item.get(...)` raises `AttributeError`. -/
structure ItemObj where
  image_index : Option Int := none
  relevance_score : Option Int := none
  temporal_relevance : Option String := none
  watermark_severity : Option String := none
  ad_presence : Option String := none
  content_quality : Option String := none
  is_relevant_to_event : Option Bool := none
  contains_outdated_info : Option Bool := none
  reasoning : Option String := none
deriving Repr, DecidableEq

/-- A decoded array entry. -/
inductive Item where
  | obj (o : ItemObj)
  | nonObj
deriving Repr, DecidableEq

/-- Python list indexing `l[i]` with an `Int` index: negative indices count
from the end, out-of-range raises `IndexError` (modelled as `none`). -/
def pyIndex (l : List String) (i : Int) : Option String :=
  if 0 ≤ i then l.get? i.toNat
  else if 0 ≤ i + l.length then l.get? (i + l.length).toNat
  else none

/-- Build one `ImageEvaluation` from an object entry, substituting the fixed
defaults of `_parse_evaluations` for omitted keys; pydantic validation of
`relevance_score` (`ge=1, le=10`) raises on an out-of-range score. -/
def convFields (u : String) (o : ItemObj) : Except String ImageEvaluation :=
  let score := o.relevance_score.getD 5
  if 1 ≤ score && score ≤ 10 then
    .ok { image_url := u, relevance_score := score,
          temporal_relevance := o.temporal_relevance.getD "not_applicable",
          watermark_severity := o.watermark_severity.getD "none",
          ad_presence := o.ad_presence.getD "none",
          content_quality := o.content_quality.getD "medium",
          is_relevant_to_event := o.is_relevant_to_event.getD false,
          contains_outdated_info := o.contains_outdated_info.getD false,
          reasoning := o.reasoning.getD "" }
  else .error "ValidationError: relevance_score"

/-- The body of the `for item in data` loop of `_parse_evaluations` for one
entry: `.ok none` means the entry was skipped (`image_index ≥ len`),
`.error` means an exception was raised at this entry. -/
def convertItem (urls : List String) : Item → Except String (Option ImageEvaluation)
  | .nonObj => .error "AttributeError"
  | .obj o =>
    let idx := o.image_index.getD 0
    if idx < (urls.length : Int) then
      match pyIndex urls idx with
      | some u =>
        match convFields u o with
        | .ok e => .ok (some e)
        | .error m => .error m
      | none => .error "IndexError"
    else .ok none

/-- The conversion loop of `_parse_evaluations`: an exception at any entry is
caught by the surrounding `except`, which returns the evaluations accumulated
so far. -/
def parseLoop (urls : List String) : List Item → List ImageEvaluation → List ImageEvaluation
  | [], acc => acc
  | it :: rest, acc =>
    match convertItem urls it with
    | .error _ => acc
    | .ok none => parseLoop urls rest acc
    | .ok (some e) => parseLoop urls rest (acc ++ [e])

/-- Embedding of `_parse_evaluations`, given the outcome of `json.loads` on the (fence
stripped) response text: a decode failure yields `[]`; otherwise the
conversion loop runs over the decoded entries. -/
def parseEvaluations (urls : List String)
    (decoded : Except String (List Item)) : List ImageEvaluation :=
  match decoded with
  | .error _ => []
  | .ok items => parseLoop urls items []

/-- Model of `quality_order.get(content_quality, 0)` in `_filter_evaluations`. -/
def qualityOrder (q : String) : Nat :=
  if q = "high" then 3 else if q = "medium" then 2 else if q = "low" then 1 else 0

/-- The rejection test of `_filter_evaluations`: keep an evaluation unless it
has a heavy watermark, intrusive ads, relevance below the floor, is not
flagged relevant to the event, or is flagged as containing outdated info. -/
def passesFilter (minRelevance : Int) (e : ImageEvaluation) : Bool :=
  !(e.watermark_severity = "heavy") && !(e.ad_presence = "intrusive") &&
    !(e.relevance_score < minRelevance) && e.is_relevant_to_event &&
    !e.contains_outdated_info

/-- Sort key of `_filter_evaluations`: `(relevance_score, quality tier)`. -/
def evalKey (e : ImageEvaluation) : Int × Nat :=
  (e.relevance_score, qualityOrder e.content_quality)

/-- Relation expressing `b ≤ a` on sort keys: a stable sort with this relation realizes
Python's stable `list.sort(key=..., reverse=True)`. -/
def evalKeyGE (a b : ImageEvaluation) : Bool :=
  (evalKey b).1 < (evalKey a).1 ||
    ((evalKey b).1 = (evalKey a).1 && (evalKey b).2 ≤ (evalKey a).2)

/-- Stable insertion: `a` goes in front of the first element it is `ge` to;
on ties `ge` holds, so `a` (originally earlier) stays earlier. -/
def insertByGE (ge : α → α → Bool) (a : α) : List α → List α
  | [] => [a]
  | b :: bs => if ge a b then a :: b :: bs else b :: insertByGE ge a bs

/-- Stable insertion sort, the model of Python's stable `list.sort` with a
descending comparison. -/
def sortByGE (ge : α → α → Bool) : List α → List α
  | [] => []
  | a :: as => insertByGE ge a (sortByGE ge as)

/-- Embedding of `VisionAnalyzer._filter_evaluations`: rejection filter, then stable sort
descending by `(relevance_score, quality tier)`. -/
def filterEvaluations (minRelevance : Int) (evals : List ImageEvaluation) :
    List ImageEvaluation :=
  sortByGE evalKeyGE (evals.filter (passesFilter minRelevance))

/-- The extension whitelist of `analyze_images`. -/
def supportedExt (path : String) : Bool :=
  [".png", ".jpg", ".jpeg", ".gif", ".webp"].any (fun ext => strEnds path ext)

/-- Embedding of `VisionAnalyzer.analyze_images`.  Here `access` is the parallel
`_validate_accessibility` probe (it catches every exception internally and
returns a boolean); `api` is the outcome of the OpenAI call, carrying on
success the outcome of `json.loads` on the response text.  The surrounding
`try` turns any API failure into `[]` (`vision_analyzer.py:124-126`). -/
def analyzeImages (imageUrls : List String) (access : String → Bool)
    (api : Except String (Except String (List Item))) : List ImageEvaluation :=
  if imageUrls.isEmpty then []
  else
    let byExt := imageUrls.filter (fun u => supportedExt (strLower (urlPath u)))
    if byExt.isEmpty then []
    else
      let capped := byExt.take 20
      let valid := capped.filter access
      if valid.isEmpty then []
      else
        let final := valid.take 5
        match api with
        | .error _ => []
        | .ok decoded => filterEvaluations 8 (parseEvaluations final decoded)

/-! ## Processor (`image_processor.ImageProcessor`) -/

/-- The headers of a HEAD response, as the processor reads them:
`content-type` defaults to `""`, `content-length` may be absent. -/
structure HeadResp where
  status : Nat
  contentType : String := ""
  contentLength : Option Nat := none
deriving Repr, DecidableEq

/-- What `PIL.Image.open` yields on the downloaded payload.  `encodedKb` is
the size of the re-encoded output (`len(processed_bytes) // 1024`), an
encoder-determined quantity supplied by the oracle. -/
structure ImgData where
  width : Nat
  height : Nat
  mode : String
  encodedKb : Nat := 0
deriving Repr, DecidableEq

/-- The network/decoding world for one URL: `none` in `headResp`/`getStatus`
models the request raising; `decoded = none` models `PIL` failing to decode
the downloaded payload. -/
structure Net where
  headResp : Option HeadResp := none
  getStatus : Option Nat := none
  decoded : Option ImgData := none
deriving Repr, DecidableEq

/-- The dict returned by `validate_image_suitability` (the `reason` string is
dropped; `needs_validation` is absent — hence falsy — on every non-fast
branch). -/
structure Suitability where
  suitable : Bool
  needsValidation : Bool := false
deriving Repr, DecidableEq

/-- Constant `IMAGE_SETTINGS['max_size_mb'] = 10`, in bytes. -/
def maxSizeBytes : Nat := 10 * 1024 * 1024

/-- Embedding of `ImageProcessor.validate_image_suitability`: header-only probe.  Note the
compliant branch always sets `needs_validation = True` (the headers cannot
show the image dimensions). -/
def validateImageSuitability (n : Net) : Suitability :=
  match n.headResp with
  | none => { suitable := false }
  | some h =>
    if h.status ≠ 200 then { suitable := false }
    else if !(strStarts h.contentType "image/") then { suitable := false }
    else
      match h.contentLength with
      | some len =>
        if maxSizeBytes < len then { suitable := false }
        else { suitable := true, needsValidation := true }
      | none => { suitable := true, needsValidation := true }

/-- Embedding of `utils.is_valid_url`: `urlparse` yields a non-empty scheme and netloc. -/
def isValidUrl (u : String) : Bool :=
  match urlSplit u with
  | some (scheme, rest) =>
    !scheme.toList.isEmpty && !(rest.toList.takeWhile (fun c => c ≠ '/')).isEmpty
  | none => false

/-- The content-type/extension fallback list of `validate_image_url`. -/
def imageExtFull (u : String) : Bool :=
  [".jpg", ".jpeg", ".png", ".gif", ".webp", ".bmp", ".svg"].any
    (fun ext => strEnds (strLower u) ext)

/-- Embedding of `ImageProcessor.validate_image_url`: URL shape check, then a HEAD request;
accept on an `image/` content-type, or on a recognized file extension. -/
def validateImageUrl (url : String) (n : Net) : Bool :=
  if !isValidUrl url then false
  else
    match n.headResp with
    | none => false
    | some h =>
      if h.status = 200 then
        if strStarts h.contentType "image/" then true
        else if imageExtFull url then true
        else false
      else false

/-- Embedding of `ImageProcessor.download_image`: `None` unless the GET returns 200. -/
def downloadOk (n : Net) : Bool :=
  match n.getStatus with
  | some 200 => true
  | _ => false

/-- The mode normalization of `process_image`: `RGBA` is kept (for PNG),
everything else is coerced to `RGB`. -/
def convertMode (m : String) : String :=
  if m = "RGBA" || m = "LA" || m = "P" then
    (if m = "RGBA" then "RGBA" else "RGB")
  else if m ≠ "RGB" && m ≠ "RGBA" then "RGB"
  else m

/-- Constant `IMAGE_SETTINGS['min_image_size'] = 1000`. -/
def minImageSize : Nat := 1000

/-- Constant `IMAGE_SETTINGS['max_dimension'] = 1280`. -/
def maxDimension : Nat := 1280

/-- Model of `img.thumbnail((max, max))`: downscale preserving aspect ratio when a
dimension exceeds the bound (PIL's rounding is floor-approximated; no checked
property depends on the exact rounded value). -/
def thumbnailDims (w h : Nat) : Nat × Nat :=
  if w ≤ maxDimension && h ≤ maxDimension then (w, h)
  else if h ≤ w then (maxDimension, h * maxDimension / w)
  else (w * maxDimension / h, maxDimension)

/-- Embedding of `ImageProcessor.process_image` on the decoded payload: reject when
neither dimension reaches the floor, normalize mode, downscale, and re-encode
as PNG (mode `RGBA`) or JPEG otherwise.  Result: (format, dimensions string,
size in KB); `none` models the `return None` / exception paths. -/
def processImage (d : Option ImgData) : Option (String × String × Nat) :=
  match d with
  | none => none
  | some img =>
    if img.width < minImageSize && img.height < minImageSize then none
    else
      let mode := convertMode img.mode
      let dims := thumbnailDims img.width img.height
      let fmt := if mode = "RGBA" then "png" else "jpeg"
      some (fmt, toString dims.1 ++ "x" ++ toString dims.2, img.encodedKb)

/-- The dict returned by `process_image_url`: the pass-through fast path has
`needs_processing = False` and carries the original URL; the slow path has
`needs_processing = True` and carries the processed payload's metadata. -/
inductive ProcessedResult where
  | passthrough (originalUrl : String)
  | processed (format dimensions : String) (sizeKb : Nat)
deriving Repr, DecidableEq

/-- Accessor `processed.get('needs_processing', True)` as read by the callers. -/
def ProcessedResult.needsProcessing : ProcessedResult → Bool
  | .passthrough _ => false
  | .processed _ _ _ => true

/-- Accessor `processed.get('format', 'original')` as read by the callers. -/
def ProcessedResult.fmt : ProcessedResult → String
  | .passthrough _ => "original"
  | .processed f _ _ => f

/-- Accessor `processed.get('dimensions', 'unknown')` as read by the callers. -/
def ProcessedResult.dims : ProcessedResult → String
  | .passthrough _ => "unknown"
  | .processed _ d _ => d

/-- The slow path of `process_image_url`: full URL validation, download, and
processing; every failure yields `none`. -/
def processSlow (url : String) (n : Net) : Option ProcessedResult :=
  if !validateImageUrl url n then none
  else if !downloadOk n then none
  else
    match processImage n.decoded with
    | none => none
    | some (fmt, dims, kb) => some (.processed fmt dims kb)

/-- Embedding of `ImageProcessor.process_image_url`: first the suitability probe (fast
path taken only when `suitable` and not `needs_validation`), then the slow
path. -/
def processImageUrl (url : String) (n : Net) (forceProcess : Bool) :
    Option ProcessedResult :=
  if !forceProcess then
    if (validateImageSuitability n).suitable
        && !(validateImageSuitability n).needsValidation then
      some (.passthrough url)
    else processSlow url n
  else processSlow url n

/-! ## Orchestrator (`main.py`) -/

/-- Constant `config.DEFAULT_FALLBACK_IMAGE`. -/
def defaultFallbackImage : String :=
  "https://via.placeholder.com/1280x720/1a1a1a/ffffff?text=No+Image+Available"

/-- Embedding of `main._create_fallback_response`: the `ImageResponse(...)` call with
exactly the keyword arguments passed at `main.py:461-472` (note `image_found`
is not among them). -/
def createFallbackResponse : Except PyExc ImageResponse :=
  mkImageResponse
    { image_url := some defaultFallbackImage,
      original_url := some defaultFallbackImage,
      tool_used := some "default",
      image_description := some "Default fallback image - no suitable image found",
      format := some "png",
      dimensions := some "1280x720",
      quality_score := some 1,
      temporal_relevance := some "not_applicable",
      watermark_status := some "none",
      cached := some false }

/-- Step 1 of `main._find_image_internal` (`main.py:139-148`): when the
collector returns no candidates, return the fallback response; otherwise the
rest of the pipeline (`rest`) runs. -/
def findImageInternalStep1 (imageUrls : List String)
    (rest : Except PyExc ImageResponse) : Except PyExc ImageResponse :=
  if imageUrls.isEmpty then createFallbackResponse else rest

/-- The outcome of `asyncio.wait_for(_find_image_internal(...), 60)` as seen
by `find_image`: a value, the 60-second `asyncio.TimeoutError`, or an
exception propagated out of the internal pipeline. -/
inductive InternalOutcome where
  | value (r : ImageResponse)
  | timeout
  | raised (e : PyExc)
deriving Repr, DecidableEq

/-- Model of `wait_for` around an internal pipeline that completed on its own: a value
is passed through, an exception propagates. -/
def outcomeOf : Except PyExc ImageResponse → InternalOutcome
  | .ok r => .value r
  | .error e => .raised e

/-- Embedding of `main.find_image`, the request handler: the nested `try` blocks at
`main.py:88-125`.  The inner `except asyncio.TimeoutError` raises
`HTTPException(504)`; that exception is itself caught by the outer
`except Exception`, which raises `HTTPException(500, str(e))`.  The second
component records whether `cache_manager.set` ran. -/
def findImage (cached : Option ImageResponse) (outcome : InternalOutcome) :
    Except PyExc ImageResponse × Bool :=
  let body : Except PyExc ImageResponse × Bool :=
    match cached with
    | some r => (.ok r, false)
    | none =>
      match outcome with
      | .value r => (.ok r, true)
      | .timeout => (.error (.http 504 "Request timeout"), false)
      | .raised e => (.error e, false)
  match body with
  | (.ok r, w) => (.ok r, w)
  | (.error e, w) => (.error (.http 500 (pyStr e)), w)

/-! ### Generic fallback (`main._try_generic_fallback`) -/

/-- The relaxed manual filter of the generic fallback (`main.py:329-334`):
keep an evaluation unless it has a heavy watermark or intrusive ads, with
the floor at 6 instead of 8. -/
def relaxedFilter (evals : List ImageEvaluation) : List ImageEvaluation :=
  evals.filter (fun e =>
    e.watermark_severity ≠ "heavy" && e.ad_presence ≠ "intrusive" &&
      6 ≤ e.relevance_score)

/-- Model of `relaxed_evals.sort(key=lambda x: x.relevance_score, reverse=True)`. -/
def relaxedSort (evals : List ImageEvaluation) : List ImageEvaluation :=
  sortByGE (fun a b => b.relevance_score ≤ a.relevance_score) evals

/-- The oracle world for one generic-fallback attempt: the generic search
result, the accessibility probe, the vision API outcome, the per-URL network
world for the processor, and the storage behaviour. -/
structure GenericWorld where
  genericImages : List String
  access : String → Bool
  visionApi : Except String (Except String (List Item))
  net : String → Net
  saveOk : Bool := true
  savedUrl : String := "https://find-image.simple-flow.co/images/saved.png"

/-- The save-or-passthrough step shared by the candidate loops
(`if processed.get('needs_processing', True): save ... else original url`);
`image_storage.save_image` re-raises on failure. -/
def storeOrOriginal (w : GenericWorld) (p : ProcessedResult) :
    Except PyExc String :=
  match p with
  | .processed _ _ _ =>
    if w.saveOk then .ok w.savedUrl else .error (.other "save_image failed")
  | .passthrough u => .ok u

/-- The candidate loop of the generic fallback's analyzed path
(`main.py:342-368`): first successfully processed candidate produces the
`ImageResponse(...)` construction at `main.py:357-368` (no `image_found`
keyword there either). -/
def processLoopGeneric (w : GenericWorld) (topic : String) :
    List ImageEvaluation → Except PyExc (Option ImageResponse)
  | [] => .ok none
  | e :: rest =>
    match processImageUrl e.image_url (w.net e.image_url) false with
    | none => processLoopGeneric w topic rest
    | some p =>
      match storeOrOriginal w p with
      | .error ex => .error ex
      | .ok iurl =>
        match mkImageResponse
          { image_url := some iurl,
            original_url := some e.image_url,
            tool_used := some "fallback (perplexity)",
            image_description := some ("Generic " ++ topic ++ " image - " ++ e.reasoning),
            format := some p.fmt,
            dimensions := some p.dims,
            quality_score := some e.relevance_score,
            temporal_relevance := some e.temporal_relevance,
            watermark_status := some e.watermark_severity,
            cached := some false } with
        | .ok r => .ok (some r)
        | .error ex => .error ex

/-- The body of the inner `try` of a generic attempt (`main.py:319-368`):
call `analyze_images`, and when it produced evaluations run the relaxed
filter, sort, and the candidate loop. -/
def genericTryBlock (w : GenericWorld) (topic : String) :
    Except PyExc (Option ImageResponse) :=
  let evaluations := analyzeImages w.genericImages w.access w.visionApi
  if evaluations.isEmpty then .ok none
  else processLoopGeneric w topic (relaxedSort (relaxedFilter evaluations))

/-- The quota/rate-limit detection at `main.py:373`:
`"429" in s or "quota" in s.lower() or "insufficient_quota" in s`. -/
def isQuotaError (s : String) : Bool :=
  strContains s "429" || strContains (strLower s) "quota" ||
    strContains s "insufficient_quota"

/-- One iteration of the blind-mode loop (`main.py:377-407`): process the raw
URL; on success build the `ImageResponse(...)` at `main.py:393-404`
(`quality_score = 5`, and again no `image_found` keyword); any exception in
the per-image `try` means `continue`. -/
def blindStep (w : GenericWorld) (topic : String) (imgUrl : String) :
    Option ImageResponse :=
  match processImageUrl imgUrl (w.net imgUrl) false with
  | none => none
  | some p =>
    match storeOrOriginal w p with
    | .error _ => none
    | .ok iurl =>
      match mkImageResponse
        { image_url := some iurl,
          original_url := some imgUrl,
          tool_used := some "fallback (perplexity)",
          image_description := some
            ("Generic " ++ topic ++ " image (selected without AI analysis due to quota limits)"),
          format := some p.fmt,
          dimensions := some p.dims,
          quality_score := some 5,
          temporal_relevance := some "not_applicable",
          watermark_status := some "none",
          cached := some false } with
      | .ok r => some r
      | .error _ => none

/-- The blind-mode loop: first raw search result that yields a response. -/
def blindLoop (w : GenericWorld) (topic : String) : Option ImageResponse :=
  w.genericImages.findSome? (blindStep w topic)

/-- One attempt of `_try_generic_fallback` (`main.py:302-413`): empty search
result means `continue`; an exception escaping the inner block is inspected
for the quota signal (blind mode) or re-raised, and the outer
`except Exception` at `main.py:412` turns any remaining exception into
`continue` (`none`). -/
def genericAttempt (w : GenericWorld) (topic : String) : Option ImageResponse :=
  let inner : Except PyExc (Option ImageResponse) :=
    if w.genericImages.isEmpty then .ok none
    else
      match genericTryBlock w topic with
      | .ok r => .ok r
      | .error e =>
        if isQuotaError (pyStr e) then .ok (blindLoop w topic)
        else .error e
  match inner with
  | .ok r => r
  | .error _ => none

/-! ## Concrete inputs used by the theorems below -/

/-- A network world whose HEAD reports a compliant image (content-type
`image/png`, size well below the 10MB ceiling), whose GET succeeds, and whose
payload decodes to a 1200×800 RGB image. -/
def okNet : Net :=
  { headResp := some { status := 200, contentType := "image/png",
                       contentLength := some 500000 },
    getStatus := some 200,
    decoded := some { width := 1200, height := 800, mode := "RGB",
                      encodedKb := 150 } }

/-- A decoded vision-model entry scoring 7, clean of watermarks/ads, relevant
and current. -/
def item7 : ItemObj :=
  { image_index := some 0, relevance_score := some 7,
    temporal_relevance := some "current", watermark_severity := some "none",
    ad_presence := some "none", content_quality := some "high",
    is_relevant_to_event := some true, contains_outdated_info := some false,
    reasoning := some "generic" }

/-- The evaluation `_parse_evaluations` builds from `item7`. -/
def eval7 : ImageEvaluation :=
  { image_url := "https://img.example.com/a.png", relevance_score := 7,
    temporal_relevance := "current", watermark_severity := "none",
    ad_presence := "none", content_quality := "high",
    is_relevant_to_event := true, contains_outdated_info := false,
    reasoning := "generic" }

/-- Generic-fallback world: one processable search result, the vision model
answering with the score-7 entry above. -/
def c5World : GenericWorld :=
  { genericImages := ["https://img.example.com/a.png"],
    access := fun _ => true,
    visionApi := .ok (.ok [.obj item7]),
    net := fun _ => okNet }

/-- The error string of an OpenAI quota failure. -/
def quotaMsg : String := "Error code: 429 - insufficient_quota"

/-- Generic-fallback world: one processable search result, the vision API
call failing with a quota error. -/
def c6World : GenericWorld :=
  { genericImages := ["https://img.example.com/a.png"],
    access := fun _ => true,
    visionApi := .error quotaMsg,
    net := fun _ => okNet }

/-- Candidate batch shared by the parser theorems. -/
def urls2 : List String := ["https://x.com/a.png", "https://x.com/b.png"]

/-- A well-formed decoded entry for image 0, scoring 9. -/
def itemGood : ItemObj :=
  { image_index := some 0, relevance_score := some 9,
    temporal_relevance := some "current", watermark_severity := some "none",
    ad_presence := some "none", content_quality := some "high",
    is_relevant_to_event := some true, contains_outdated_info := some false,
    reasoning := some "good" }

/-- The evaluation `_parse_evaluations` builds from `itemGood`. -/
def evalGood : ImageEvaluation :=
  { image_url := "https://x.com/a.png", relevance_score := 9,
    temporal_relevance := "current", watermark_severity := "none",
    ad_presence := "none", content_quality := "high",
    is_relevant_to_event := true, contains_outdated_info := false,
    reasoning := "good" }

/-- A decoded entry for image 1 whose `relevance_score` of 15 violates the
pydantic `le=10` bound, so converting it raises. -/
def itemBad : ItemObj := { image_index := some 1, relevance_score := some 15 }

/-- A decoded entry carrying `image_index = -1`: outside the submitted batch
`0..len-1`, but Python list indexing resolves it to the last element. -/
def itemNeg : ItemObj :=
  { image_index := some (-1), relevance_score := some 9,
    temporal_relevance := some "current", watermark_severity := some "none",
    ad_presence := some "none", content_quality := some "high",
    is_relevant_to_event := some true, contains_outdated_info := some false,
    reasoning := some "neg" }

/-- The evaluation built from `itemNeg`: it lands on the batch's *last* URL. -/
def evalNeg : ImageEvaluation :=
  { image_url := "https://x.com/b.png", relevance_score := 9,
    temporal_relevance := "current", watermark_severity := "none",
    ad_presence := "none", content_quality := "high",
    is_relevant_to_event := true, contains_outdated_info := false,
    reasoning := "neg" }

/-- The stored entry used in the C7 witness: cached at time 0 with a live
URL. -/
def c7entry : CacheEntry :=
  { cached_at := some 0, image_url := some "https://x.com/a.png" }

/-- A one-entry cache mapping for the C7 witness. -/
def c7cache : String → Option CacheEntry :=
  fun k => if k = "k" then some c7entry else none

/-! ## C1 — empty collection and the default fallback response -/

/-- C1: the claim says that when the collector returns an empty list the
service returns the default-image response with `tool_used="default"` as a
normal success.  In the code, `_create_fallback_response` constructs
`ImageResponse` without the required `image_found` field, so pydantic raises
a `ValidationError`; the handler's outer `except Exception` turns it into
`HTTPException(500)`.  The caller gets an HTTP 500 error, not the default
response. -/
theorem empty_collection_yields_http_500 (rest : Except PyExc ImageResponse) :
    createFallbackResponse = Except.error (PyExc.validationErr missingImageFoundMsg)
    ∧ findImageInternalStep1 [] rest
        = Except.error (PyExc.validationErr missingImageFoundMsg)
    ∧ (findImage none (outcomeOf (findImageInternalStep1 [] rest))).1
        = Except.error (PyExc.http 500 missingImageFoundMsg)
    ∧ ((findImage none (outcomeOf (findImageInternalStep1 [] rest))).1.isOk = false) :=
  ⟨rfl, rfl, rfl, rfl⟩

/-! ## C2 — overall timeout status code -/

/-- C2: the claim says an overall-budget overrun surfaces as HTTP 504.  The
`HTTPException(504)` raised by the inner `except asyncio.TimeoutError` is
itself caught by the outer `except Exception` (`main.py:123-125`), which
replaces it with `HTTPException(500, str(e))`: the caller receives 500, not
504.  No cache write happens on this path (second component `false`). -/
theorem timeout_yields_http_500_not_504 :
    (findImage none .timeout).1
      = Except.error (PyExc.http 500 "504: Request timeout")
    ∧ (findImage none .timeout).2 = false :=
  ⟨rfl, rfl⟩

/-! ## C4 — the suitability fast path is unreachable -/

/-- Helper for C4: the compliant branch of the probe always flags
`needs_validation`, so the fast-path guard of `process_image_url` is false
for every network world. -/
theorem suitability_guard_always_false (n : Net) :
    ((validateImageSuitability n).suitable
      && !(validateImageSuitability n).needsValidation) = false := by
  unfold validateImageSuitability
  cases h : n.headResp with
  | none => rfl
  | some hd =>
    by_cases h1 : hd.status ≠ 200
    · simp [h1]
    · by_cases h2 : strStarts hd.contentType "image/"
      · cases h3 : hd.contentLength with
        | none => simp [h1, h2, h3]
        | some len =>
          by_cases h4 : maxSizeBytes < len
          · simp [h1, h2, h3, h4]
          · simp [h1, h2, h3, h4]
      · simp [h1, h2]

/-- C4 counterexample: a URL whose header-only probe reports the asset
compliant (content-type `image/png`, 500000 bytes < 10MB ceiling, probe
verdict `suitable = true`), yet `process_image_url` does not skip the
download: it takes the slow path and returns `needs_processing = true`
with re-encoded metadata instead of carrying the original URL forward. -/
theorem probe_compliant_but_still_processed :
    (validateImageSuitability okNet).suitable = true
    ∧ (strStarts (okNet.headResp.getD { status := 0 }).contentType "image/") = true
    ∧ ((okNet.headResp.getD { status := 0 }).contentLength.getD 0 ≤ maxSizeBytes)
    ∧ processImageUrl "https://img.example.com/a.png" okNet false
        = some (.processed "jpeg" "1200x800" 150)
    ∧ (ProcessedResult.processed "jpeg" "1200x800" 150).needsProcessing = true := by
  refine ⟨?_, ?_, ?_, ?_, ?_⟩ <;> decide

/-- C4 amended: the probe's compliant verdict always carries
`needs_validation = true`, so `process_image_url` (with the default
`force_process=False`) never takes the fast path: every successful result has
`needs_processing = true`; the `needs_processing=false` pass-through is
unreachable. -/
theorem process_image_url_never_skips (url : String) (n : Net)
    (r : ProcessedResult) (h : processImageUrl url n false = some r) :
    r.needsProcessing = true := by
  unfold processImageUrl at h
  rw [suitability_guard_always_false] at h
  simp only [Bool.not_false, if_true, Bool.false_eq_true, if_false] at h
  unfold processSlow at h
  by_cases h1 : validateImageUrl url n
  · by_cases h2 : downloadOk n
    · simp only [h1, h2, Bool.not_true, Bool.false_eq_true, if_false] at h
      cases h3 : processImage n.decoded with
      | none => rw [h3] at h; exact absurd h (by simp)
      | some t =>
        obtain ⟨fmt, dims, kb⟩ := t
        rw [h3] at h
        cases h
        rfl
    · simp_all
  · simp_all

/-- C4 amended, witness. -/
theorem process_image_url_never_skips_witness :
    (ProcessedResult.processed "jpeg" "1200x800" 150).needsProcessing = true :=
  process_image_url_never_skips "https://img.example.com/a.png" okNet
    (.processed "jpeg" "1200x800" 150) (by decide)

/-! ## C5 — the generic-fallback relevance floor -/

/-- C5: the claim says the floor is lowered to 6 in generic fallback, so a
score-6/7 candidate can be selected.  But `_try_generic_fallback` obtains its
evaluations from `analyze_images`, which internally applies
`_filter_evaluations` at the default floor 8: the score-7 evaluation is
dropped before the relaxed `>= 6` filter (which alone would keep it) ever
runs, and the attempt produces nothing. -/
theorem generic_floor_never_effectively_lowered :
    parseEvaluations ["https://img.example.com/a.png"]
        (.ok [.obj item7]) = [eval7]
    ∧ relaxedFilter [eval7] = [eval7]
    ∧ filterEvaluations 8 [eval7] = []
    ∧ analyzeImages c5World.genericImages c5World.access c5World.visionApi = []
    ∧ genericAttempt c5World "technology" = none := by
  refine ⟨?_, ?_, ?_, ?_, ?_⟩ <;> decide

/-! ## C6 — quota errors never reach blind mode -/

/-- C6: the claim says a 429/quota failure of the Evaluator makes the attempt
process the raw results blindly.  But `analyze_images` catches every
exception internally and returns `[]` (`vision_analyzer.py:124-126`), so the
quota error never escapes to the `except ... as vision_error` handler in
`_try_generic_fallback`: the inner block ends with `Except.ok none`,
blind mode is never entered, and the attempt yields nothing — even though
the raw search result is processable and the error carries the quota
signal. -/
theorem quota_error_never_reaches_blind_mode :
    analyzeImages c6World.genericImages c6World.access c6World.visionApi = []
    ∧ genericTryBlock c6World "technology" = Except.ok none
    ∧ genericAttempt c6World "technology" = none
    ∧ processImageUrl "https://img.example.com/a.png"
        (c6World.net "https://img.example.com/a.png") false
        = some (.processed "jpeg" "1200x800" 150)
    ∧ isQuotaError quotaMsg = true := by
  refine ⟨by decide, by rfl, by decide, by decide, by decide⟩

/-! ## C3 — the analyzer's failure modes -/

/-- C3 counterexample: a response whose second entry fails conversion (score
15 is rejected by pydantic validation).  The `except` in `_parse_evaluations`
returns the evaluations accumulated so far, so `analyze_images` returns a
non-empty partial result — not the empty sequence the claim requires on any
internal parse failure. -/
theorem parse_failure_yields_truncated_output :
    convertItem urls2 (.obj itemBad) = .error "ValidationError: relevance_score"
    ∧ parseEvaluations urls2 (.ok [.obj itemGood, .obj itemBad]) = [evalGood]
    ∧ analyzeImages urls2 (fun _ => true)
        (.ok (.ok [.obj itemGood, .obj itemBad])) = [evalGood] := by
  refine ⟨by rfl, by decide, by decide⟩

/-- C3 amended: `analyze_images` never raises; a failed API call or a JSON
decode failure yields `[]`; but a conversion failure at an individual entry
truncates: the result is exactly the conversion of the entries before the
failing one (which can be non-empty), entries after it being discarded. -/
theorem analyze_failure_modes :
    (∀ (urls : List String) (access : String → Bool) (e : String),
        analyzeImages urls access (.error e) = [])
    ∧ (∀ (urls : List String) (access : String → Bool) (d : String),
        analyzeImages urls access (.ok (.error d)) = [])
    ∧ (∀ (urls : List String) (front : List Item) (bad : Item)
        (tail : List Item) (acc : List ImageEvaluation) (m : String),
        convertItem urls bad = .error m →
        parseLoop urls (front ++ bad :: tail) acc = parseLoop urls front acc) := by
  refine ⟨?_, ?_, ?_⟩
  · intro urls access e
    unfold analyzeImages
    dsimp only
    repeat' split
    all_goals rfl
  · intro urls access d
    unfold analyzeImages
    dsimp only
    repeat' split
    all_goals rfl
  · intro urls front bad tail acc m h
    induction front generalizing acc with
    | nil => simp [parseLoop, h]
    | cons i is ih =>
      simp only [List.cons_append, parseLoop]
      cases hci : convertItem urls i with
      | error m2 => rfl
      | ok o =>
        cases o with
        | none => exact ih acc
        | some e2 => exact ih (acc ++ [e2])

/-- C3 amended, witness: the truncation equation at the concrete failing
batch. -/
theorem analyze_failure_modes_witness :
    parseLoop urls2 ([Item.obj itemGood] ++ Item.obj itemBad :: []) []
      = parseLoop urls2 [Item.obj itemGood] [] :=
  analyze_failure_modes.2.2 urls2 [Item.obj itemGood] (Item.obj itemBad) [] []
    "ValidationError: relevance_score" (by rfl)

/-! ## C10 — parse defaults and out-of-batch indices -/

/-- C10 counterexample: an entry whose `image_index = -1` is outside the
submitted batch, but it is *not* dropped: the guard `idx < len(image_urls)`
passes and Python's negative indexing resolves `image_urls[-1]` to the last
URL of the batch, producing an evaluation for it. -/
theorem negative_image_index_not_dropped :
    parseEvaluations urls2 (.ok [.obj itemNeg]) = [evalNeg]
    ∧ ((-1 : Int) < 0)
    ∧ pyIndex urls2 (-1) = some "https://x.com/b.png" := by
  refine ⟨by decide, by decide, by decide⟩

/-- Membership is preserved by the stable insertion. -/
theorem mem_insertByGE {ge : α → α → Bool} {a x : α} :
    ∀ {l : List α}, x ∈ insertByGE ge a l ↔ x = a ∨ x ∈ l := by
  intro l
  induction l with
  | nil => simp [insertByGE]
  | cons b bs ih =>
    simp only [insertByGE]
    split
    · simp
    · simp only [List.mem_cons, ih]
      tauto

/-- Membership is preserved by the stable sort. -/
theorem mem_sortByGE {ge : α → α → Bool} {x : α} :
    ∀ {l : List α}, x ∈ sortByGE ge l ↔ x ∈ l := by
  intro l
  induction l with
  | nil => simp [sortByGE]
  | cons a as ih => simp [sortByGE, mem_insertByGE, ih]

/-- C10 amended: omitted fields get the fixed defaults of
`_parse_evaluations` — in particular an entry omitting
`is_relevant_to_event` is parsed with `is_relevant_to_event = false`, and
such an evaluation never appears in `_filter_evaluations` output (at any
floor); an entry whose `image_index` is at least the batch size is dropped.
(A *negative* index, also outside the batch, is not dropped — see the
counterexample.) -/
theorem parse_defaults_and_index_bounds :
    (∀ (urls : List String) (o : ItemObj) (e : ImageEvaluation),
        o.is_relevant_to_event = none →
        convertItem urls (.obj o) = .ok (some e) →
        e.is_relevant_to_event = false)
    ∧ (∀ (m : Int) (evals : List ImageEvaluation) (e : ImageEvaluation),
        e.is_relevant_to_event = false → e ∈ filterEvaluations m evals → False)
    ∧ (∀ (urls : List String) (o : ItemObj) (k : Int),
        o.image_index = some k → (urls.length : Int) ≤ k →
        convertItem urls (.obj o) = .ok none) := by
  refine ⟨?_, ?_, ?_⟩
  · intro urls o e ho h
    simp only [convertItem] at h
    split at h
    · cases hp : pyIndex urls (o.image_index.getD 0) with
      | none => rw [hp] at h; exact absurd h (by simp)
      | some u =>
        rw [hp] at h
        dsimp only at h
        cases hcf : convFields u o with
        | error m => rw [hcf] at h; exact absurd h (by simp)
        | ok e2 =>
          rw [hcf] at h
          dsimp only at h
          simp only [Except.ok.injEq, Option.some.injEq] at h
          subst h
          unfold convFields at hcf
          dsimp only at hcf
          split at hcf
          · simp only [Except.ok.injEq] at hcf
            subst hcf
            simp [ho]
          · exact absurd hcf (by simp)
    · exact absurd h (by simp)
  · intro m evals e he hmem
    unfold filterEvaluations at hmem
    rw [mem_sortByGE] at hmem
    have := List.of_mem_filter hmem
    simp [passesFilter, he] at this
  · intro urls o k hk hle
    simp only [convertItem]
    rw [hk]
    simp only [Option.getD_some]
    rw [if_neg (by omega)]

/-- C10 amended, witness: the all-defaults entry parses to the default
evaluation (not relevant to the event), and index 5 on a 2-element batch is
dropped. -/
theorem parse_defaults_and_index_bounds_witness :
    ({ image_url := "https://x.com/a.png", relevance_score := 5,
       temporal_relevance := "not_applicable", watermark_severity := "none",
       ad_presence := "none", content_quality := "medium",
       is_relevant_to_event := false, contains_outdated_info := false,
       reasoning := "" } : ImageEvaluation).is_relevant_to_event = false
    ∧ convertItem urls2 (.obj { image_index := some 5 }) = .ok none :=
  ⟨parse_defaults_and_index_bounds.1 urls2 {} _ rfl (by rfl),
   parse_defaults_and_index_bounds.2.2 urls2 { image_index := some 5 } 5 rfl
     (by decide)⟩

/-! ## C7 — cache lookup validity and single eviction -/

/-- Computation lemma: for a present entry with a non-empty stored URL,
`CacheManager.get` reduces to the three-way decision on freshness and
reachability. -/
theorem cacheGet_of_present (key : String) (now : Int) (reach : String → Bool)
    (c : String → Option CacheEntry) (d : CacheEntry) (u : String)
    (hc : c key = some d) (hu : d.image_url = some u) (hne : u ≠ "") :
    cacheGet key now reach c =
      if sevenDays < now - d.cached_at.getD epoch2000 then
        (none, fun k => if k = key then none else c k)
      else if reach u then
        (some { d with cached := true },
          fun k => if k = key then some { d with cached := true } else c k)
      else (none, fun k => if k = key then none else c k) := by
  unfold cacheGet
  rw [hc]
  dsimp only
  rw [hu]
  dsimp only
  rw [if_neg hne]

/-- C7: a stored entry is returned iff its age is at most 7 days and its
stored image URL passes the reachability probe at read time; when either
check fails, the lookup reports a miss and exactly that one key is evicted —
every other key maps to the same value as before. -/
theorem cache_get_entry_validity (key : String) (now : Int) (reach : String → Bool)
    (c : String → Option CacheEntry) (d : CacheEntry) (u : String)
    (hc : c key = some d) (hu : d.image_url = some u) (hne : u ≠ "") :
    ((cacheGet key now reach c).1.isSome = true ↔
        (now - d.cached_at.getD epoch2000 ≤ sevenDays ∧ reach u = true))
    ∧ ((sevenDays < now - d.cached_at.getD epoch2000 ∨ reach u = false) →
        (cacheGet key now reach c).1 = none
        ∧ (cacheGet key now reach c).2 key = none
        ∧ ∀ k, k ≠ key → (cacheGet key now reach c).2 k = c k) := by
  rw [cacheGet_of_present key now reach c d u hc hu hne]
  by_cases hexp : sevenDays < now - d.cached_at.getD epoch2000
  · rw [if_pos hexp]
    constructor
    · constructor
      · intro hs; simp at hs
      · rintro ⟨hle, _⟩; omega
    · intro _
      exact ⟨rfl, by simp, fun k hk => by simp [hk]⟩
  · rw [if_neg hexp]
    by_cases hr : reach u = true
    · rw [if_pos hr]
      constructor
      · simp only [Option.isSome_some, true_iff]
        exact ⟨by omega, hr⟩
      · rintro (h1 | h2)
        · exact absurd h1 hexp
        · rw [hr] at h2; cases h2
    · rw [if_neg hr]
      constructor
      · constructor
        · intro hs; simp at hs
        · rintro ⟨_, hru⟩; exact absurd hru hr
      · intro _
        exact ⟨rfl, by simp, fun k hk => by simp [hk]⟩

/-- C7 witness: reading the entry one second after the 7-day horizon misses,
evicts key `"k"`, and leaves key `"j"` untouched. -/
theorem cache_get_entry_validity_witness :
    (cacheGet "k" 604801 (fun _ => true) c7cache).1 = none
    ∧ (cacheGet "k" 604801 (fun _ => true) c7cache).2 "k" = none
    ∧ (cacheGet "k" 604801 (fun _ => true) c7cache).2 "j" = c7cache "j" := by
  have h := (cache_get_entry_validity "k" 604801 (fun _ => true) c7cache c7entry
      "https://x.com/a.png" (by rfl) (by rfl) (by decide)).2
      (Or.inl (by decide))
  exact ⟨h.1, h.2.1, h.2.2 "j" (by decide)⟩

/-! ## C8 — the cache fingerprint content -/

/-- Character-level shape of the fingerprinted content. -/
theorem cacheContent_data (t r : String) (s : Option String)
    (i : Option (List String)) :
    (cacheContent t r s i).data
      = t.data ++ '|' :: (r.data ++ '|' ::
          ((s.getD "").data ++ '|' :: (pyStrList (i.getD [])).data)) := by
  have hbar : ("|" : String).data = ['|'] := rfl
  simp [cacheContent, String.data_append, hbar, List.append_assoc]

/-- C8 counterexample: two requests differing in exactly one field produce
the same pre-hash content, hence the same SHA-256 fingerprint: `source_url`
absent versus `source_url = ""`, and `images` absent versus `images = []`
(the code folds both through `or`-defaulting before hashing).  The `isSome`
conjuncts record that the changed field really differs. -/
theorem cache_key_one_field_change_collides :
    cacheContent "t" "r" none none = cacheContent "t" "r" (some "") none
    ∧ cacheContent "t" "r" none none = cacheContent "t" "r" none (some [])
    ∧ (some "" : Option String).isSome = true
    ∧ (none : Option String).isSome = false
    ∧ (some ([] : List String)).isSome = true
    ∧ (none : Option (List String)).isSome = false :=
  ⟨rfl, rfl, rfl, rfl, rfl, rfl⟩

/-- Two strings with equal character data are equal. -/
theorem eq_of_data_eq {a b : String} (h : a.data = b.data) : a = b := by
  cases a; cases b; exact congrArg String.mk h

/-- The quote `repr` chooses is never a backslash. -/
theorem pyQuote_ne_bs (s : String) : pyQuote s ≠ bsChar := by
  unfold pyQuote
  split <;> decide

/-- Decoding inverts escaping: reading an escaped stream followed by the
closing quote recovers the content and the remainder of the stream. -/
theorem decodeElem_escChars (q : Char) (hq : q ≠ bsChar) :
    ∀ (s rest : List Char),
      decodeElem q (escChars q s ++ q :: rest) = some (s, rest) := by
  intro s
  induction s with
  | nil =>
    intro rest
    simp only [escChars, List.nil_append]
    rw [decodeElem.eq_def]
    simp
  | cons c cs ih =>
    intro rest
    by_cases hc : c = bsChar ∨ c = q
    · have hbq : bsChar ≠ q := Ne.symm hq
      simp only [escChars, if_pos hc, List.cons_append]
      rw [decodeElem.eq_def]
      simp [hbq, ih]
    · have hcq : c ≠ q := fun h => hc (Or.inr h)
      have hcb : c ≠ bsChar := fun h => hc (Or.inl h)
      simp only [escChars, if_neg hc, List.cons_append]
      rw [decodeElem.eq_def]
      simp [hcq, hcb, ih]

/-- A rendered element determines both the string it came from and whatever
follows it in the stream. -/
theorem pyReprChars_append_inj (s1 s2 : String) (t1 t2 : List Char)
    (h : pyReprChars s1 ++ t1 = pyReprChars s2 ++ t2) : s1 = s2 ∧ t1 = t2 := by
  simp only [pyReprChars, List.cons_append, List.append_assoc,
    List.singleton_append, List.nil_append] at h
  injection h with hq h2
  rw [← hq] at h2
  have d1 := decodeElem_escChars (pyQuote s1) (pyQuote_ne_bs s1) s1.toList t1
  have d2 := decodeElem_escChars (pyQuote s1) (pyQuote_ne_bs s1) s2.toList t2
  rw [h2, d2] at d1
  injection d1 with dp
  injection dp with hs ht
  refine ⟨?_, ht.symm⟩
  cases s1; cases s2; exact (congrArg String.mk hs).symm

/-- Unfolding the join at a cons cell. -/
theorem joinReprChars_cons (s : String) (r : List String) :
    joinReprChars (s :: r) = pyReprChars s ++ sepTail r := by
  cases r with
  | nil => simp [joinReprChars, sepTail]
  | cons y t => simp [joinReprChars, sepTail]

/-- The character data of the joined `repr`s equals the char-level join. -/
theorem joinSep_repr_data :
    ∀ (l : List String), (joinSep ", " (l.map pyRepr)).data = joinReprChars l := by
  intro l
  induction l with
  | nil => rfl
  | cons s r ih =>
    cases r with
    | nil => rfl
    | cons y t =>
      have hsep : (", " : String).data = [',', ' '] := rfl
      have hpr : (pyRepr s).data = pyReprChars s := rfl
      simp only [List.map_cons] at ih ⊢
      simp only [joinSep, String.data_append, hsep, hpr, ih]
      simp [joinReprChars, List.append_assoc]

/-- The char-level join of rendered elements is injective. -/
theorem joinReprChars_inj :
    ∀ (l1 l2 : List String), joinReprChars l1 = joinReprChars l2 → l1 = l2 := by
  intro l1
  induction l1 with
  | nil =>
    intro l2 h
    cases l2 with
    | nil => rfl
    | cons s r =>
      rw [joinReprChars_cons] at h
      exact absurd h (by simp [joinReprChars, pyReprChars])
  | cons s1 r1 ih =>
    intro l2 h
    cases l2 with
    | nil =>
      rw [joinReprChars_cons] at h
      exact absurd h (by simp [joinReprChars, pyReprChars])
    | cons s2 r2 =>
      rw [joinReprChars_cons, joinReprChars_cons] at h
      obtain ⟨hs, ht⟩ := pyReprChars_append_inj s1 s2 (sepTail r1) (sepTail r2) h
      subst hs
      cases r1 with
      | nil =>
        cases r2 with
        | nil => rfl
        | cons y2 t2 => exact absurd ht (by simp [sepTail])
      | cons y1 t1 =>
        cases r2 with
        | nil => exact absurd ht (by simp [sepTail])
        | cons y2 t2 =>
          simp only [sepTail] at ht
          injection ht with _ ht2
          injection ht2 with _ ht3
          rw [ih (y2 :: t2) ht3]

/-- The Python `str(list_of_strings)` rendering is injective: distinct lists
give distinct renderings. -/
theorem pyStrList_inj (l1 l2 : List String) (h : pyStrList l1 = pyStrList l2) :
    l1 = l2 := by
  have hd := congrArg String.data h
  simp only [pyStrList, String.data_append, joinSep_repr_data] at hd
  rw [List.append_assoc, List.append_assoc] at hd
  have h1 := List.append_cancel_left hd
  have h2 := List.append_cancel_right h1
  exact joinReprChars_inj l1 l2 h2

/-- C8 amended: the fingerprint is a pure function of the four fields
(determinism is immediate), and the pre-hash content determines each of
`title`, `research`, `source_url or ''` and `str(images or [])` exactly —
so changing any one field, the other three fixed, changes the fingerprint,
*except* when the change stays inside the two identifications introduced by
the `or`-defaulting: `source_url` between `None` and `""`, and `images`
between `None` and `[]`.  In particular changing `source_url` or `images`
between any two non-identified values still changes the fingerprint. -/
theorem cache_key_content_properties :
    (∀ t1 t2 r s i, cacheContent t1 r s i = cacheContent t2 r s i → t1 = t2)
    ∧ (∀ t r1 r2 s i, cacheContent t r1 s i = cacheContent t r2 s i → r1 = r2)
    ∧ (∀ t r s1 s2 i, cacheContent t r s1 i = cacheContent t r s2 i →
        s1.getD "" = s2.getD "")
    ∧ (∀ t r s i1 i2, cacheContent t r s i1 = cacheContent t r s i2 →
        i1.getD [] = i2.getD [])
    ∧ (∀ t r i, cacheContent t r none i = cacheContent t r (some "") i)
    ∧ (∀ t r s, cacheContent t r s none = cacheContent t r s (some [])) := by
  refine ⟨?_, ?_, ?_, ?_, fun t r i => rfl, fun t r s => rfl⟩
  · intro t1 t2 r s i h
    have hd := congrArg String.data h
    rw [cacheContent_data, cacheContent_data] at hd
    have h2 := List.append_cancel_right hd
    cases t1; cases t2; exact congrArg String.mk h2
  · intro t r1 r2 s i h
    have hd := congrArg String.data h
    rw [cacheContent_data, cacheContent_data] at hd
    have h1 := List.append_cancel_left hd
    injection h1 with _ h2
    have h3 := List.append_cancel_right h2
    cases r1; cases r2; exact congrArg String.mk h3
  · intro t r s1 s2 i h
    have hd := congrArg String.data h
    rw [cacheContent_data, cacheContent_data] at hd
    have h1 := List.append_cancel_left hd
    injection h1 with _ h2
    have h3 := List.append_cancel_left h2
    injection h3 with _ h4
    have h5 := List.append_cancel_right h4
    exact eq_of_data_eq h5
  · intro t r s i1 i2 h
    have hd := congrArg String.data h
    rw [cacheContent_data, cacheContent_data] at hd
    have h1 := List.append_cancel_left hd
    injection h1 with _ h2
    have h3 := List.append_cancel_left h2
    injection h3 with _ h4
    have h5 := List.append_cancel_left h4
    injection h5 with _ h6
    exact pyStrList_inj _ _ (eq_of_data_eq h6)

/-- C8 amended, witness: the four sensitivity conjuncts applied at concrete
contents, discharging their content-equality hypotheses. -/
theorem cache_key_content_properties_witness :
    ("a" : String) = "a" ∧ ("b" : String) = "b"
    ∧ (some "c" : Option String).getD "" = (some "c" : Option String).getD ""
    ∧ (some ["d"] : Option (List String)).getD []
        = (some ["d"] : Option (List String)).getD [] :=
  ⟨cache_key_content_properties.1 "a" "a" "r" none none rfl,
   cache_key_content_properties.2.1 "t" "b" "b" none none rfl,
   cache_key_content_properties.2.2.1 "t" "r" (some "c") (some "c") none rfl,
   cache_key_content_properties.2.2.2.1 "t" "r" none (some ["d"]) (some ["d"]) rfl⟩

/-! ## C9 — collector dedup keeps first occurrences in order -/

/-- Membership in the dedup loop's output. -/
theorem mem_dedupFirst {x : String} :
    ∀ (l seen : List String), x ∈ dedupFirst l seen ↔ x ∈ l ∧ x ∉ seen := by
  intro l
  induction l with
  | nil => intro seen; simp [dedupFirst]
  | cons y ys ih =>
    intro seen
    simp only [dedupFirst]
    split
    · rename_i hy
      rw [ih]
      simp only [List.mem_cons]
      constructor
      · rintro ⟨hxs, hns⟩; exact ⟨Or.inr hxs, hns⟩
      · rintro ⟨rfl | hxs, hns⟩
        · exact absurd hy hns
        · exact ⟨hxs, hns⟩
    · rename_i hy
      simp only [List.mem_cons, ih]
      constructor
      · rintro (rfl | ⟨hxs, hnys⟩)
        · exact ⟨Or.inl rfl, hy⟩
        · exact ⟨Or.inr hxs, fun hs => hnys (Or.inr hs)⟩
      · rintro ⟨rfl | hxs, hns⟩
        · exact Or.inl rfl
        · by_cases hxy : x = y
          · exact Or.inl hxy
          · exact Or.inr ⟨hxs, by simp [hxy, hns]⟩

/-- The dedup loop's output has no duplicates. -/
theorem nodup_dedupFirst : ∀ (l seen : List String), (dedupFirst l seen).Nodup := by
  intro l
  induction l with
  | nil => intro seen; simp [dedupFirst]
  | cons y ys ih =>
    intro seen
    simp only [dedupFirst]
    split
    · exact ih seen
    · refine List.nodup_cons.mpr ⟨?_, ih (y :: seen)⟩
      intro hmem
      exact ((mem_dedupFirst ys (y :: seen)).1 hmem).2 (List.mem_cons_self y seen)

/-- The dedup loop's output is ordered by first occurrence in the input. -/
theorem pairwise_dedupFirst :
    ∀ (l seen : List String),
      (dedupFirst l seen).Pairwise (fun a b => l.indexOf a < l.indexOf b) := by
  intro l
  induction l with
  | nil => intro seen; simp [dedupFirst]
  | cons y ys ih =>
    intro seen
    simp only [dedupFirst]
    split
    · rename_i hy
      refine List.Pairwise.imp_of_mem ?_ (ih seen)
      intro a b ha hb hlt
      have ha2 := (mem_dedupFirst ys seen).1 ha
      have hb2 := (mem_dedupFirst ys seen).1 hb
      have hay : y ≠ a := fun h => ha2.2 (h ▸ hy)
      have hby : y ≠ b := fun h => hb2.2 (h ▸ hy)
      rw [List.indexOf_cons_ne _ hay, List.indexOf_cons_ne _ hby]
      omega
    · rename_i hy
      refine List.Pairwise.cons ?_ ?_
      · intro b hb
        have hb2 := (mem_dedupFirst ys (y :: seen)).1 hb
        have hby : y ≠ b := fun h => hb2.2 (h ▸ List.mem_cons_self y seen)
        rw [List.indexOf_cons_self, List.indexOf_cons_ne _ hby]
        omega
      · refine List.Pairwise.imp_of_mem ?_ (ih (y :: seen))
        intro a b ha hb hlt
        have ha2 := (mem_dedupFirst ys (y :: seen)).1 ha
        have hb2 := (mem_dedupFirst ys (y :: seen)).1 hb
        have hay : y ≠ a := fun h => ha2.2 (h ▸ List.mem_cons_self y seen)
        have hby : y ≠ b := fun h => hb2.2 (h ▸ List.mem_cons_self y seen)
        rw [List.indexOf_cons_ne _ hay, List.indexOf_cons_ne _ hby]
        omega

/-- C9: `collect_all` output contains exactly the URLs of the merged channel
list, each distinct URL exactly once, ordered by index of first occurrence
in the merged list — i.e. first-seen order, the kept occurrence being the
earliest (so the earliest channel's provenance wins). -/
theorem collect_all_unique_first_seen (candidates : Option (List String))
    (scraped searched : List String) :
    (∀ x, x ∈ collectAll candidates scraped searched
        ↔ x ∈ collectMerged candidates scraped searched)
    ∧ (∀ x ∈ collectMerged candidates scraped searched,
        (collectAll candidates scraped searched).count x = 1)
    ∧ (collectAll candidates scraped searched).Pairwise
        (fun a b => (collectMerged candidates scraped searched).indexOf a
          < (collectMerged candidates scraped searched).indexOf b) := by
  refine ⟨?_, ?_, pairwise_dedupFirst _ _⟩
  · intro x
    unfold collectAll
    rw [mem_dedupFirst]
    simp
  · intro x hx
    unfold collectAll
    exact List.count_eq_one_of_mem (nodup_dedupFirst _ _)
      ((mem_dedupFirst _ _).2 ⟨hx, by simp⟩)

/-- C9 witness: a merged list with repeats across channels keeps one copy. -/
theorem collect_all_unique_first_seen_witness :
    (collectAll (some ["a", "b", "a"]) ["b"] ["c"]).count "a" = 1 :=
  (collect_all_unique_first_seen (some ["a", "b", "a"]) ["b"] ["c"]).2.1 "a"
    (by decide)

end ImageFinder
